import Mathlib

/-!
Shallow embedding of `src/parte4/backend/api_server.py` (Flask REST API over a
SQLite store of health-insurance operators and their quarterly expenses).

The relational store is modelled as in-memory lists of rows; SQL queries are
translated clause by clause into list operations.  Python `int` is `Int`,
SQLite `REAL` amounts and wall-clock seconds are `ℚ` (exact arithmetic in
place of IEEE floats), Python exceptions are an `Except` error channel.
-/

namespace AnsApi

/-! ## Data model (tables `operadoras` and `despesas`, lines 64-84) -/

/-- A row of the `operadoras` table (`cnpj` is the primary key). -/
structure Operadora where
  cnpj : String
  razao_social : String
  registro_ans : String
  modalidade : String
  uf : String
  deriving Repr, DecidableEq

/-- A row of the `despesas` table (`id` is the autoincrement surrogate key;
`cnpj` is the foreign key to `operadoras`). -/
structure Despesa where
  id : Nat
  cnpj : String
  trimestre : Int
  ano : Int
  valor : ℚ
  deriving Repr, DecidableEq

/-- The relational store: the two tables, rows in storage order. -/
structure Store where
  operadoras : List Operadora
  despesas : List Despesa
  deriving Repr

/-! ## String helpers: Python `str.strip` (line 145) and SQL `LIKE '%x%'`
(line 154). SQLite `LIKE` is case-insensitive on ASCII; the `%`/`_`
wildcard characters inside the user text are not given wildcard meaning
here (the claims under study do not depend on that corner). -/

/-- ASCII lower-casing, as SQLite's `LIKE` applies to `A`-`Z`. -/
def lowerChar (c : Char) : Char :=
  if 'A' ≤ c ∧ c ≤ 'Z' then Char.ofNat (c.toNat + 32) else c

/-- Characters stripped by Python `str.strip()` (ASCII whitespace). -/
def isStripChar (c : Char) : Bool :=
  c == ' ' || c == '\t' || c == '\n' || c == '\x0d' || c == '\x0b' || c == '\x0c'

/-- Python `s.strip()` on the character list. -/
def stripChars (cs : List Char) : List Char :=
  ((cs.dropWhile isStripChar).reverse.dropWhile isStripChar).reverse

/-- Python `s.strip()`. -/
def pyStrip (s : String) : String := ⟨stripChars s.data⟩

/-- Does `p` occur at the head of `s`? -/
def headMatch : List Char → List Char → Bool
  | [], _ => true
  | _ :: _, [] => false
  | a :: as, b :: bs => a == b && headMatch as bs

/-- Does `p` occur somewhere inside `s`? -/
def subMatch (p : List Char) : List Char → Bool
  | [] => p.isEmpty
  | c :: rest => headMatch p (c :: rest) || subMatch p rest

/-- `col LIKE '%pat%'` in SQLite: case-insensitive (ASCII) substring test. -/
def likeContains (pat col : String) : Bool :=
  subMatch (pat.data.map lowerChar) (col.data.map lowerChar)

/-- The `WHERE razao_social LIKE ? OR cnpj LIKE ?` predicate of lines 154-155,
with `?` bound to `%busca%` in both positions. -/
def matchesBusca (busca : String) (o : Operadora) : Bool :=
  likeContains busca o.razao_social || likeContains busca o.cnpj

/-! ## Python `int()` parsing (lines 140-141) -/

/-- Value of a nonempty all-digit character list, `none` otherwise.
(Underscore digit grouping accepted by CPython is not modelled; no claim
depends on it.) -/
def digitsVal (cs : List Char) : Option Nat :=
  if cs.isEmpty then none
  else cs.foldl
    (fun acc c => match acc with
      | none => none
      | some n => if c.isDigit then some (n * 10 + (c.toNat - 48)) else none)
    (some 0)

/-- Python `int(s)`: strip whitespace, optional sign, base-10 digits;
`none` models the `ValueError` raised on malformed input. -/
def parsePyInt (s : String) : Option Int :=
  match stripChars s.data with
  | '+' :: rest => (digitsVal rest).map (fun n => (n : Int))
  | '-' :: rest => (digitsVal rest).map (fun n => -(n : Int))
  | cs => (digitsVal cs).map (fun n => (n : Int))

/-! ## `GET /api/operadoras` (lines 122-182) -/

/-- Python exceptions that escape a handler (both surface as HTTP 500
through Flask's error machinery). -/
inductive ApiError where
  | valueError
  | zeroDivisionError
  deriving Repr, DecidableEq

/-- The JSON envelope built at lines 176-182. -/
structure Envelope where
  data : List Operadora
  page : Int
  limit : Int
  total : Nat
  total_pages : Int
  deriving Repr, DecidableEq

/-- `ORDER BY razao_social` (SQLite BINARY collation; UTF-8 byte order
agrees with code-point order). -/
def razaoLe (a b : Operadora) : Prop := a.razao_social ≤ b.razao_social

instance : DecidableRel razaoLe := fun a b =>
  inferInstanceAs (Decidable (a.razao_social ≤ b.razao_social))

instance : IsTotal Operadora razaoLe := ⟨fun a b => le_total a.razao_social b.razao_social⟩

instance : IsTrans Operadora razaoLe := ⟨fun _ _ _ h h2 => le_trans h h2⟩

/-- SQLite `LIMIT ? OFFSET ?` semantics: a negative offset acts as 0 and a
negative limit means "no upper bound". -/
def sqliteSlice (rows : List Operadora) (limit offset : Int) : List Operadora :=
  let dropped := rows.drop (max offset 0).toNat
  if limit < 0 then dropped else dropped.take limit.toNat

/-- Rows selected by the data query (lines 158-167): optional `WHERE`
clause, `ORDER BY razao_social`, then `LIMIT ? OFFSET ?`. -/
def filteredOperadoras (store : Store) (busca : String) : List Operadora :=
  if busca ≠ "" then store.operadoras.filter (matchesBusca busca)
  else store.operadoras

/-- Body of `listar_operadoras` after parameter parsing (lines 142-182):
`page` and the raw `limit` are already Python ints, `busca` is already
stripped.  `min limit 100` is the clamp of line 141; the count query of
lines 170-171 reuses the same `WHERE` clause and `busca` parameters; the
`(total + limit - 1) // limit` of line 181 is Python floor division, which
raises `ZeroDivisionError` when `limit = 0`. -/
def listarCore (store : Store) (page limitReq : Int) (busca : String) :
    Except ApiError Envelope :=
  let limit := min limitReq 100
  let offset := (page - 1) * limit
  let rows := sqliteSlice (List.insertionSort razaoLe (filteredOperadoras store busca)) limit offset
  let total := (filteredOperadoras store busca).length
  if limit = 0 then .error .zeroDivisionError
  else .ok
    { data := rows
      page := page
      limit := limit
      total := total
      total_pages := ((total : Int) + limit - 1).fdiv limit }

/-- The query-string parameters of the listing route, `none` = absent. -/
structure ListParams where
  page : Option String
  limit : Option String
  busca : Option String

/-- `int(request.args.get(name, dflt))`: an absent parameter falls back to
the integer default, a present one goes through Python `int()`, whose
`ValueError` on malformed text escapes the handler. -/
def getParamInt (p : Option String) (dflt : Int) : Except ApiError Int :=
  match p with
  | none => .ok dflt
  | some s =>
    match parsePyInt s with
    | some n => .ok n
    | none => .error .valueError

/-- The full `listar_operadoras` handler (lines 123-182): parse `page`
(default 1) and `limit` (default 10), strip `busca` (absent = `''`), run
the queries.  A parse failure aborts the handler, as the uncaught
`ValueError` does in the source. -/
def listar_operadoras (store : Store) (ps : ListParams) : Except ApiError Envelope :=
  match getParamInt ps.page 1 with
  | .error e => .error e
  | .ok page =>
    match getParamInt ps.limit 10 with
    | .error e => .error e
    | .ok limitReq => listarCore store page limitReq (pyStrip (ps.busca.getD ""))

/-! ## `GET /api/operadoras/<cnpj>` and `GET /api/operadoras/<cnpj>/despesas`
(lines 185-238) -/

/-- A JSON error body `{'erro': ...}` together with its HTTP status. -/
structure ErrResp where
  status : Nat
  erro : String
  deriving Repr, DecidableEq

/-- `SELECT ... FROM operadoras WHERE cnpj = ?` followed by `fetchone()`:
the first row whose primary key equals the path parameter. -/
def find_operadora (store : Store) (cnpj : String) : Option Operadora :=
  store.operadoras.find? (fun o => o.cnpj == cnpj)

/-- `detalhes_operadora` (lines 186-203): 404 `{'erro': 'Operadora não
encontrada'}` when the row is absent, the full row otherwise. -/
def detalhes_operadora (store : Store) (cnpj : String) : Except ErrResp Operadora :=
  match find_operadora store cnpj with
  | none => .error ⟨404, "Operadora não encontrada"⟩
  | some o => .ok o

/-- One element of the `despesas` array in the history body
(`SELECT trimestre, ano, valor`, line 226). -/
structure DespesaItem where
  trimestre : Int
  ano : Int
  valor : ℚ
  deriving Repr, DecidableEq

/-- `ORDER BY ano DESC, trimestre DESC` of line 229. -/
def anoTrimDesc (a b : DespesaItem) : Prop :=
  b.ano < a.ano ∨ (a.ano = b.ano ∧ b.trimestre ≤ a.trimestre)

instance : DecidableRel anoTrimDesc := fun a b =>
  inferInstanceAs (Decidable (b.ano < a.ano ∨ (a.ano = b.ano ∧ b.trimestre ≤ a.trimestre)))

instance : IsTotal DespesaItem anoTrimDesc :=
  ⟨fun a b => by
    rcases lt_trichotomy a.ano b.ano with h | h | h
    · exact Or.inr (Or.inl h)
    · rcases le_total b.trimestre a.trimestre with ht | ht
      · exact Or.inl (Or.inr ⟨h, ht⟩)
      · exact Or.inr (Or.inr ⟨h.symm, ht⟩)
    · exact Or.inl (Or.inl h)⟩

instance : IsTrans DespesaItem anoTrimDesc :=
  ⟨fun a b c hab hbc => by
    rcases hab with h1 | ⟨h1, h1t⟩ <;> rcases hbc with h2 | ⟨h2, h2t⟩
    · exact Or.inl (h2.trans h1)
    · exact Or.inl (h2 ▸ h1)
    · exact Or.inl (h1 ▸ h2)
    · exact Or.inr ⟨h1.trans h2, h2t.trans h1t⟩⟩

/-- The success body of the history route (lines 234-238). -/
structure HistBody where
  cnpj : String
  razao_social : String
  despesas : List DespesaItem
  deriving Repr, DecidableEq

/-- `historico_despesas` (lines 207-238).  The operator is resolved first;
when it is absent the handler returns 404 at once and the expense query is
never executed — the `Bool` component records whether the expense query
ran.  Otherwise all of the operator's expense rows are returned, ordered
by year then quarter, both descending, with no `LIMIT`. -/
def historico_despesas (store : Store) (cnpj : String) :
    Except ErrResp HistBody × Bool :=
  match find_operadora store cnpj with
  | none => (.error ⟨404, "Operadora não encontrada"⟩, false)
  | some o =>
    let rows := (store.despesas.filter (fun d => d.cnpj == cnpj)).map
      (fun d => DespesaItem.mk d.trimestre d.ano d.valor)
    (.ok ⟨cnpj, o.razao_social, List.insertionSort anoTrimDesc rows⟩, true)

/-! ## `GET /api/estatisticas` (lines 241-323) -/

/-- Python `round(x, 2)` modelled on exact rationals: round-half-to-even at
the second decimal place. -/
def roundHalfEven (q : ℚ) : Int :=
  let f := ⌊q⌋
  if q - f < 1 / 2 then f
  else if 1 / 2 < q - f then f + 1
  else if f % 2 = 0 then f else f + 1

/-- `round(x, 2)`. -/
def round2 (q : ℚ) : ℚ := (roundHalfEven (q * 100) : ℚ) / 100

/-- SQL `SUM(valor)` over a bag of rows: `NULL` (here `none`) on the empty
bag, the exact sum otherwise. -/
def sqlSum (vs : List ℚ) : Option ℚ :=
  if vs.isEmpty then none else some vs.sum

/-- SQL `AVG(valor)`: `NULL` on the empty bag, else the arithmetic mean. -/
def sqlAvg (vs : List ℚ) : Option ℚ :=
  if vs.isEmpty then none else some (vs.sum / (vs.length : ℚ))

/-- Python `x or 0` applied to a nullable query result (lines 274, 279):
`None` becomes `0` (a falsy `0.0` also yields `0`, the same value). -/
def orZero (x : Option ℚ) : ℚ :=
  match x with
  | none => 0
  | some v => v

/-- All expense rows of the operator with key `cnpj` (the join/filter
`ON o.cnpj = d.cnpj` and `WHERE cnpj = ?`). -/
def despesasDe (store : Store) (cnpj : String) : List Despesa :=
  store.despesas.filter (fun d => d.cnpj == cnpj)

/-- Sum of the amounts of a list of expense rows. -/
def sumValores (ds : List Despesa) : ℚ := (ds.map (fun d => d.valor)).sum

/-- One row of the top-5 query result (lines 282-292). -/
structure TopOperadora where
  cnpj : String
  razao_social : String
  total_despesas : ℚ
  deriving Repr, DecidableEq

/-- `ORDER BY total_despesas DESC` of line 290. -/
def totalDesc (a b : TopOperadora) : Prop := b.total_despesas ≤ a.total_despesas

instance : DecidableRel totalDesc := fun a b =>
  inferInstanceAs (Decidable (b.total_despesas ≤ a.total_despesas))

instance : IsTotal TopOperadora totalDesc := ⟨fun a b => le_total b.total_despesas a.total_despesas⟩

instance : IsTrans TopOperadora totalDesc := ⟨fun _ _ _ h h2 => le_trans h2 h⟩

/-- Operators surviving the `INNER JOIN despesas` (at least one expense
row); `cnpj` is the table's primary key so grouping the join by
`o.cnpj, o.razao_social` is grouping by operator row. -/
def qualifying (store : Store) : List Operadora :=
  store.operadoras.filter (fun o => !(despesasDe store o.cnpj).isEmpty)

/-- The grouped rows of the top-5 query before `ORDER BY`/`LIMIT`:
one row per operator that has expenses, carrying the sum of its own
expense amounts. -/
def groupedTotals (store : Store) : List TopOperadora :=
  (qualifying store).map
    (fun o => TopOperadora.mk o.cnpj o.razao_social (sumValores (despesasDe store o.cnpj)))

/-- The top-5 query (lines 282-292): group, order by total descending,
`LIMIT 5`. -/
def topOperadorasQuery (store : Store) : List TopOperadora :=
  (List.insertionSort totalDesc (groupedTotals store)).take 5

/-- One row of the per-region query result (lines 295-304). -/
structure DistribUF where
  uf : String
  num_operadoras : Nat
  total_despesas : ℚ
  deriving Repr, DecidableEq

/-- `ORDER BY total_despesas DESC` of line 303. -/
def ufTotalDesc (a b : DistribUF) : Prop := b.total_despesas ≤ a.total_despesas

instance : DecidableRel ufTotalDesc := fun a b =>
  inferInstanceAs (Decidable (b.total_despesas ≤ a.total_despesas))

instance : IsTotal DistribUF ufTotalDesc := ⟨fun a b => le_total b.total_despesas a.total_despesas⟩

instance : IsTrans DistribUF ufTotalDesc := ⟨fun _ _ _ h h2 => le_trans h2 h⟩

/-- The per-region query (lines 295-304): over the inner join, group by
`uf`, count distinct operator keys and sum the joined amounts, order by
total descending.  Regions whose operators have no expense rows produce
no join rows, hence no group. -/
def distribuicaoUfQuery (store : Store) : List DistribUF :=
  let rows := (((qualifying store).map (fun o => o.uf)).dedup).map
    (fun u =>
      let ops := (qualifying store).filter (fun o => o.uf == u)
      DistribUF.mk u ((ops.map (fun o => o.cnpj)).dedup).length
        ((ops.map (fun o => sumValores (despesasDe store o.cnpj))).sum))
  List.insertionSort ufTotalDesc rows

/-- The `resumo` object of lines 310-314. -/
structure Resumo where
  total_despesas : ℚ
  media_despesas : ℚ
  num_operadoras : Nat
  deriving Repr, DecidableEq

/-- The full statistics body (lines 309-317). -/
structure Estatisticas where
  resumo : Resumo
  top_operadoras : List TopOperadora
  distribuicao_uf : List DistribUF
  deriving Repr, DecidableEq

/-- The aggregation queries and response assembly of lines 269-317 (the
cache-miss path of `estatisticas`). -/
def computeEstatisticas (store : Store) : Estatisticas :=
  let total_despesas := orZero (sqlSum (store.despesas.map (fun d => d.valor)))
  let media_despesas := orZero (sqlAvg (store.despesas.map (fun d => d.valor)))
  let top := topOperadorasQuery store
  { resumo :=
      { total_despesas := round2 total_despesas
        media_despesas := round2 media_despesas
        num_operadoras := top.length }
    top_operadoras := top
    distribuicao_uf := distribuicaoUfQuery store }

/-- The module-level `cache_estatisticas` dict (lines 37-41): nullable
value, nullable population time (seconds), fixed 300-second timeout. -/
structure CacheState where
  dados : Option Estatisticas
  timestamp : Option ℚ
  timeout : ℚ
  deriving Repr, DecidableEq

/-- The cache as initialised at module load. -/
def initialCache : CacheState := ⟨none, none, 300⟩

/-- The `estatisticas` handler (lines 242-323) as a state transformer:
given the store, the value of `datetime.now()` in seconds and the cache,
it yields the response body, the cache afterwards, and whether the
aggregation queries ran.  The cached value is served only when both cache
fields are set and its age is strictly below the timeout; otherwise the
statistics are recomputed and both fields are overwritten. -/
def estatisticas_route (store : Store) (agora : ℚ) (c : CacheState) :
    Estatisticas × CacheState × Bool :=
  let fresh :=
    let r := computeEstatisticas store
    (r, ({ dados := some r, timestamp := some agora, timeout := c.timeout } : CacheState), true)
  match c.dados, c.timestamp with
  | some d, some t => if agora - t < c.timeout then (d, c, false) else fresh
  | some _, none => fresh
  | none, _ => fresh

/-! ## Concrete sample data -/

/-- A sample operator row. -/
def opAlfa : Operadora := ⟨"111", "Alfa Saude", "123456", "Medicina de Grupo", "SP"⟩

/-- A sample operator row. -/
def opBeta : Operadora := ⟨"222", "Beta Planos", "654321", "Cooperativa Medica", "RJ"⟩

/-- A sample operator row with no expense rows. -/
def opGama : Operadora := ⟨"333", "Gama Vida", "111222", "Seguradora", "SP"⟩

/-- A small concrete store. -/
def demoStore : Store :=
  { operadoras := [opAlfa, opBeta, opGama]
    despesas :=
      [ ⟨1, "111", 1, 2024, 100⟩
      , ⟨2, "111", 3, 2024, 200⟩
      , ⟨3, "222", 2, 2023, 50⟩ ] }

/-- A store whose `despesas` table is empty. -/
def emptyDemo : Store := { operadoras := [opAlfa], despesas := [] }

/-- Statistics of the sample store. -/
def demoStats : Estatisticas := computeEstatisticas demoStore

/-- A cache populated at time 0 with the sample statistics. -/
def demoCache : CacheState := ⟨some demoStats, some 0, 300⟩

/-- The envelope the listing yields on the sample store for
`page=1`, `limit=10`, `busca='alfa'`. -/
def demoEnv : Envelope := ⟨[opAlfa], 1, 10, 1, 1⟩

/-! ## General lemmas about the embedding -/

/-- The empty pattern occurs in every string. -/
theorem subMatch_nil (cs : List Char) : subMatch [] cs = true := by
  cases cs <;> simp [subMatch, headMatch]

/-- Whether or not the `WHERE` clause is attached (it is attached exactly
when the stripped `busca` is nonempty), the rows that survive are the rows
matching `busca` in one of the two columns: an empty pattern matches every
row. -/
theorem filteredOperadoras_eq (store : Store) (busca : String) :
    filteredOperadoras store busca = store.operadoras.filter (matchesBusca busca) := by
  unfold filteredOperadoras
  by_cases h : busca = ""
  · subst h
    simp only [ne_eq, not_true_eq_false, if_false]
    symm
    refine List.filter_eq_self.mpr (fun o _ => ?_)
    simp [matchesBusca, likeContains, subMatch_nil]
  · simp [h]

/-- When the clamped limit is nonzero, `listarCore` returns the envelope
assembled at lines 176-182. -/
theorem listarCore_ok (store : Store) (page limitReq : Int) (busca : String)
    (h : min limitReq 100 ≠ 0) :
    listarCore store page limitReq busca = .ok
      { data := sqliteSlice (List.insertionSort razaoLe (filteredOperadoras store busca))
          (min limitReq 100) ((page - 1) * min limitReq 100)
        page := page
        limit := min limitReq 100
        total := (filteredOperadoras store busca).length
        total_pages := (((filteredOperadoras store busca).length : Int)
          + min limitReq 100 - 1).fdiv (min limitReq 100) } := by
  unfold listarCore
  simp [h]

/-! ## The claims -/

/-- Claim C2: the slice query and the total-count query of the listing
operation apply the same predicate — substring match of `busca` against
the legal-name column or the tax-identifier column — so the returned
`total` always equals the number of rows matching `busca` in either
column, independent of `page` and `limit` (neither appears on the
right-hand side). -/
theorem total_matches_filter (store : Store) (page limitReq : Int) (busca : String)
    (env : Envelope) (h : listarCore store page limitReq busca = .ok env) :
    env.total = (store.operadoras.filter
      (fun o => likeContains busca o.razao_social || likeContains busca o.cnpj)).length := by
  by_cases h0 : min limitReq 100 = 0
  · unfold listarCore at h
    simp [h0] at h
  · rw [listarCore_ok store page limitReq busca h0] at h
    simp only [Except.ok.injEq] at h
    rw [← h]
    show (filteredOperadoras store busca).length = _
    rw [filteredOperadoras_eq]
    rfl

/-- Claim C6: a requested `limit` above 100 is silently clamped: the
request behaves exactly as a request with `limit = 100` (so 100 is the
effective limit in the slice, the offset and the page count), and it is
answered, not rejected. -/
theorem limit_clamped_to_100 (store : Store) (page limitReq : Int) (busca : String)
    (h : 100 < limitReq) :
    listarCore store page limitReq busca = listarCore store page 100 busca ∧
    ∃ env, listarCore store page limitReq busca = .ok env ∧ env.limit = 100 := by
  have hm : min limitReq 100 = 100 := min_eq_right h.le
  constructor
  · unfold listarCore
    rw [hm]
    norm_num
  · rw [listarCore_ok store page limitReq busca (by rw [hm]; norm_num)]
    exact ⟨_, rfl, by simp [hm]⟩

/-- Claim C7, counterexample: a malformed `page` parameter is not coerced
to its default — `int('abc')` raises and the handler yields the error
channel (surfaced as HTTP 500), refuting "this path is never an error
response". -/
theorem malformed_page_raises :
    listar_operadoras demoStore ⟨some "abc", none, none⟩ = .error .valueError := by
  rfl

/-- Claim C7, amended: *missing* pagination parameters are coerced to the
defaults `page = 1`, `limit = 10` and the request succeeds; a *malformed*
(non-numeric) `page` or `limit` instead raises `ValueError`, which
surfaces as an error response. -/
theorem pagination_defaults (store : Store) (b : Option String) (s : String)
    (hs : parsePyInt s = none) :
    listar_operadoras store ⟨none, none, b⟩ =
      listarCore store 1 10 (pyStrip (b.getD "")) ∧
    (∃ env, listar_operadoras store ⟨none, none, b⟩ = .ok env ∧
      env.page = 1 ∧ env.limit = 10) ∧
    listar_operadoras store ⟨some s, none, b⟩ = .error .valueError ∧
    listar_operadoras store ⟨none, some s, b⟩ = .error .valueError := by
  refine ⟨rfl, ?_, ?_, ?_⟩
  · have he : listar_operadoras store ⟨none, none, b⟩ =
        listarCore store 1 10 (pyStrip (b.getD "")) := rfl
    rw [he, listarCore_ok store 1 10 _ (by norm_num)]
    exact ⟨_, rfl, rfl, by norm_num⟩
  · simp [listar_operadoras, getParamInt, hs]
  · simp [listar_operadoras, getParamInt, hs]

/-- Claim C10: the lower bound of the documented `limit` domain is not
enforced: `limit = 0` reaches the `(total + limit - 1) // limit`
expression and raises `ZeroDivisionError` (no envelope is produced, the
exception surfaces as a 500), the textual input `limit=0` reaches that
branch through the public handler, and a negative `limit` is passed
through unclamped as the effective limit of the slice query. -/
theorem limit_lower_bound_unenforced (store : Store) (page l : Int) (busca : String)
    (hl : l < 0) :
    listarCore store page 0 busca = .error .zeroDivisionError ∧
    listar_operadoras store ⟨none, some "0", none⟩ = .error .zeroDivisionError ∧
    ∃ env, listarCore store page l busca = .ok env ∧ env.limit = l := by
  have hz : ∀ s b, listarCore s (1 : Int) (0 : Int) b = .error .zeroDivisionError := by
    intro s b
    unfold listarCore
    norm_num
  refine ⟨?_, ?_, ?_⟩
  · unfold listarCore
    norm_num
  · show listarCore store 1 0 (pyStrip "") = .error .zeroDivisionError
    exact hz store (pyStrip "")
  · have hm : min l 100 = l := min_eq_left (by omega)
    rw [listarCore_ok store page l busca (by omega)]
    exact ⟨_, rfl, by simp [hm]⟩

/-- Claim C8: a tax identifier with no matching operator row makes both the
detail lookup and the expense-history lookup answer 404 with the body
`{'erro': 'Operadora não encontrada'}` (an error, never a success with an
empty body), and in the history lookup the expense query is never issued
(the `false` flag). -/
theorem notfound_404 (store : Store) (cnpj : String)
    (h : find_operadora store cnpj = none) :
    detalhes_operadora store cnpj = .error ⟨404, "Operadora não encontrada"⟩ ∧
    historico_despesas store cnpj = (.error ⟨404, "Operadora não encontrada"⟩, false) := by
  unfold detalhes_operadora historico_despesas
  rw [h]
  exact ⟨rfl, rfl⟩

/-- Claim C5: the statistics summary's `total_despesas` is the sum of all
expense amounts in the store and `media_despesas` is their arithmetic
mean, each rounded to 2 decimal places; on a store with no expense rows
both fields are the number 0 (never null: SQL `NULL` is replaced by `or 0`
before rounding). -/
theorem resumo_totais (store : Store) :
    (computeEstatisticas store).resumo.total_despesas =
      round2 ((store.despesas.map (fun d => d.valor)).sum) ∧
    (store.despesas ≠ [] →
      (computeEstatisticas store).resumo.media_despesas =
        round2 ((store.despesas.map (fun d => d.valor)).sum / (store.despesas.length : ℚ))) ∧
    (store.despesas = [] →
      (computeEstatisticas store).resumo.total_despesas = 0 ∧
      (computeEstatisticas store).resumo.media_despesas = 0) := by
  have hr0 : round2 0 = 0 := by
    norm_num [round2, roundHalfEven]
  by_cases he : store.despesas = []
  · refine ⟨?_, fun hne => absurd he hne, fun _ => ⟨?_, ?_⟩⟩ <;>
      simp [computeEstatisticas, sqlSum, sqlAvg, orZero, he, hr0]
  · have hmap : store.despesas.map (fun d => d.valor) ≠ [] := by
      simpa using he
    refine ⟨?_, fun _ => ?_, fun habs => absurd habs he⟩ <;>
      simp [computeEstatisticas, sqlSum, sqlAvg, orZero, hmap]

/-- Claim C3: a statistics call finding a cached value younger than the
300-second timeout returns exactly the cached value, leaves the cache
untouched and runs no aggregation query (`false` flag); a call finding the
cache unpopulated, or a value aged at least 300 seconds, runs the
aggregation queries (`true` flag) and overwrites both the cached value and
the timestamp with the current time. -/
theorem cache_ttl (store : Store) (agora t : ℚ) (c : CacheState) (d : Estatisticas)
    (hto : c.timeout = 300) :
    (c.dados = some d → c.timestamp = some t → agora - t < 300 →
      estatisticas_route store agora c = (d, c, false)) ∧
    ((c.dados = none ∨ c.timestamp = none) →
      estatisticas_route store agora c =
        (computeEstatisticas store,
          ⟨some (computeEstatisticas store), some agora, c.timeout⟩, true)) ∧
    (c.dados = some d → c.timestamp = some t → 300 ≤ agora - t →
      estatisticas_route store agora c =
        (computeEstatisticas store,
          ⟨some (computeEstatisticas store), some agora, c.timeout⟩, true)) := by
  obtain ⟨dd, tt, toV⟩ := c
  simp only [CacheState.mk.injEq] at hto ⊢
  subst hto
  refine ⟨?_, ?_, ?_⟩
  · rintro rfl rfl hlt
    simp [estatisticas_route, hlt]
  · rintro (rfl | rfl)
    · simp [estatisticas_route]
    · cases dd <;> simp [estatisticas_route]
  · rintro rfl rfl hge
    simp [estatisticas_route, not_lt.mpr hge]

/-- The Python idiom `(t + l - 1) // l` computes `⌈t / l⌉` for a
nonnegative numerator and positive divisor. -/
theorem fdiv_eq_ceil (t : Nat) (l : Int) (hl : 1 ≤ l) :
    ((t : Int) + l - 1).fdiv l = ⌈(t : ℚ) / (l : ℚ)⌉ := by
  have hl0 : (0 : Int) < l := by omega
  have hlQ : (0 : ℚ) < (l : ℚ) := by exact_mod_cast hl0
  rw [Int.fdiv_eq_ediv _ hl0.le]
  have hdm := Int.ediv_add_emod ((t : Int) + l - 1) l
  have hr0 := Int.emod_nonneg ((t : Int) + l - 1) (by omega : l ≠ 0)
  have hrl := Int.emod_lt_of_pos ((t : Int) + l - 1) hl0
  set c := ((t : Int) + l - 1) / l with hc
  set r := ((t : Int) + l - 1) % l with hr
  symm
  rw [Int.ceil_eq_iff]
  have hclt : (c - 1) * l < (t : Int) := by nlinarith
  have hcle : (t : Int) ≤ c * l := by nlinarith
  constructor
  · rw [show ((c : ℚ) - 1) = ((c - 1 : Int) : ℚ) by push_cast; ring]
    rw [lt_div_iff₀ hlQ]
    exact_mod_cast hclt
  · rw [div_le_iff₀ hlQ]
    exact_mod_cast hcle

/-- Claim C1: under valid parameters (`page ≥ 1`, `limit ∈ [1,100]`, any
`busca`) the listing succeeds; the slice holds at most `limit` rows;
`total` is the full filtered count; `total_pages` is `⌈total / limit⌉`
when `total > 0` and `0` when `total = 0`; and an out-of-range page
(offset beyond the filtered count) yields an empty slice while `total` is
unchanged. -/
theorem listar_pagination (store : Store) (page limit : Int) (busca : String)
    (hp : 1 ≤ page) (h1 : 1 ≤ limit) (h2 : limit ≤ 100) :
    ∃ env, listarCore store page limit busca = .ok env ∧
      env.data.length ≤ limit.toNat ∧
      env.total = (filteredOperadoras store busca).length ∧
      (0 < env.total → env.total_pages = ⌈(env.total : ℚ) / (limit : ℚ)⌉) ∧
      (env.total = 0 → env.total_pages = 0) ∧
      ((env.total : Int) ≤ (page - 1) * limit → env.data = []) := by
  have hm : min limit 100 = limit := min_eq_left h2
  rw [listarCore_ok store page limit busca (by omega)]
  rw [hm]
  refine ⟨_, rfl, ?_, rfl, ?_, ?_, ?_⟩
  · show (sqliteSlice _ limit _).length ≤ limit.toNat
    unfold sqliteSlice
    rw [if_neg (by omega)]
    simp only [List.length_take]
    exact min_le_left _ _
  · intro _
    show (((filteredOperadoras store busca).length : Int) + limit - 1).fdiv limit = _
    exact fdiv_eq_ceil _ limit h1
  · intro h0
    show (((filteredOperadoras store busca).length : Int) + limit - 1).fdiv limit = 0
    rw [show (filteredOperadoras store busca).length = 0 from h0]
    rw [Int.fdiv_eq_ediv _ (by omega)]
    push_cast
    rw [zero_add]
    exact Int.ediv_eq_zero_of_lt (by omega) (by omega)
  · intro hoff
    have hoff2 : (((filteredOperadoras store busca).length : Nat) : Int)
        ≤ (page - 1) * limit := hoff
    show sqliteSlice _ limit _ = []
    unfold sqliteSlice
    rw [if_neg (by omega)]
    have hlen : (List.insertionSort razaoLe (filteredOperadoras store busca)).length
        = (filteredOperadoras store busca).length := List.length_insertionSort _ _
    have hdrop : (List.insertionSort razaoLe (filteredOperadoras store busca)).drop
        (max ((page - 1) * limit) 0).toNat = [] := by
      apply List.drop_eq_nil_of_le
      rw [hlen]
      omega
    rw [hdrop, List.take_nil]

/-- Claim C9: for an existing operator the history operation returns all of
that operator's expense records — a permutation of the full filtered
table, no pagination or truncation — ordered by year descending and,
within a year, by quarter descending. -/
theorem historico_completo_ordenado (store : Store) (cnpj : String) (o : Operadora)
    (h : find_operadora store cnpj = some o) :
    ∃ body, historico_despesas store cnpj = (.ok body, true) ∧
      body.cnpj = cnpj ∧ body.razao_social = o.razao_social ∧
      List.Perm body.despesas
        ((store.despesas.filter (fun d => d.cnpj == cnpj)).map
          (fun d => DespesaItem.mk d.trimestre d.ano d.valor)) ∧
      List.Pairwise
        (fun a b => b.ano < a.ano ∨ (a.ano = b.ano ∧ b.trimestre ≤ a.trimestre))
        body.despesas := by
  unfold historico_despesas
  rw [h]
  refine ⟨_, rfl, rfl, rfl, ?_, ?_⟩
  · exact List.perm_insertionSort _ _
  · exact List.sorted_insertionSort anoTrimDesc _

/-- Claim C4: `top_operadoras` has at most 5 entries, is ordered by
descending expense sum, every entry is an operator with at least one
expense record carrying the sum of its own expenses, operators with zero
expense records never appear, no operator-with-expenses outside the list
out-sums a listed one, and `num_operadoras` in the summary is the length
of this list (not the store's operator count). -/
theorem top_operadoras_spec (store : Store) :
    (computeEstatisticas store).top_operadoras.length ≤ 5 ∧
    List.Pairwise (fun a b => b.total_despesas ≤ a.total_despesas)
      (computeEstatisticas store).top_operadoras ∧
    (∀ r ∈ (computeEstatisticas store).top_operadoras,
      despesasDe store r.cnpj ≠ [] ∧
      r.total_despesas = sumValores (despesasDe store r.cnpj)) ∧
    (∀ o ∈ store.operadoras, despesasDe store o.cnpj = [] →
      ∀ r ∈ (computeEstatisticas store).top_operadoras, r.cnpj ≠ o.cnpj) ∧
    (∀ r ∈ groupedTotals store, r ∉ (computeEstatisticas store).top_operadoras →
      ∀ s ∈ (computeEstatisticas store).top_operadoras,
        r.total_despesas ≤ s.total_despesas) ∧
    (computeEstatisticas store).resumo.num_operadoras =
      (computeEstatisticas store).top_operadoras.length := by
  have htop : (computeEstatisticas store).top_operadoras = topOperadorasQuery store := rfl
  have hsorted : List.Pairwise totalDesc
      (List.insertionSort totalDesc (groupedTotals store)) :=
    List.sorted_insertionSort totalDesc _
  have hmemgrp : ∀ r ∈ topOperadorasQuery store, r ∈ groupedTotals store := by
    intro r hr
    have h1 : r ∈ List.insertionSort totalDesc (groupedTotals store) :=
      List.take_subset 5 _ hr
    exact (List.mem_insertionSort totalDesc).mp h1
  have hmem3 : ∀ r ∈ topOperadorasQuery store,
      despesasDe store r.cnpj ≠ [] ∧
      r.total_despesas = sumValores (despesasDe store r.cnpj) := by
    intro r hr
    obtain ⟨o, ho, heq⟩ := List.mem_map.mp (hmemgrp r hr)
    obtain ⟨-, ho2⟩ := List.mem_filter.mp ho
    subst heq
    refine ⟨?_, rfl⟩
    intro hnil
    rw [hnil] at ho2
    simp at ho2
  rw [htop]
  refine ⟨?_, ?_, hmem3, ?_, ?_, rfl⟩
  · exact List.length_take_le 5 _
  · exact hsorted.sublist (List.take_sublist 5 _)
  · intro o _ hempty r hr hcn
    have := (hmem3 r hr).1
    rw [hcn, hempty] at this
    exact this rfl
  · intro r hrg hnot s hs
    have hsplit := List.take_append_drop 5 (List.insertionSort totalDesc (groupedTotals store))
    have hr2 : r ∈ List.insertionSort totalDesc (groupedTotals store) :=
      (List.mem_insertionSort totalDesc).mpr hrg
    rw [← hsplit] at hr2
    rcases List.mem_append.mp hr2 with hl | hrdrop
    · exact absurd hl hnot
    · have hpw := hsorted
      rw [← hsplit] at hpw
      exact (List.pairwise_append.mp hpw).2.2 s hs r hrdrop

/-! ## Witnesses: the theorems above applied at concrete inputs -/

/-- Witness for `listar_pagination` at the sample store. -/
theorem listar_pagination_witness :
    (1 : Int) ≤ 1 ∧ (1 : Int) ≤ 10 ∧ (10 : Int) ≤ 100 ∧
    (∃ env, listarCore demoStore 1 10 "" = .ok env ∧
      env.data.length ≤ (10 : Int).toNat ∧
      env.total = (filteredOperadoras demoStore "").length ∧
      (0 < env.total → env.total_pages = ⌈(env.total : ℚ) / ((10 : Int) : ℚ)⌉) ∧
      (env.total = 0 → env.total_pages = 0) ∧
      ((env.total : Int) ≤ (1 - 1) * 10 → env.data = [])) :=
  ⟨by decide, by decide, by decide,
    listar_pagination demoStore 1 10 "" (by decide) (by decide) (by decide)⟩

/-- Witness for `total_matches_filter` at the sample store. -/
theorem total_matches_filter_witness :
    listarCore demoStore 1 10 "alfa" = .ok demoEnv ∧
    demoEnv.total = (demoStore.operadoras.filter
      (fun o => likeContains "alfa" o.razao_social || likeContains "alfa" o.cnpj)).length :=
  ⟨rfl, total_matches_filter demoStore 1 10 "alfa" demoEnv rfl⟩

/-- Witness for `cache_ttl` with a cache populated at time 0, read at
times 100 and observed stale offsets. -/
theorem cache_ttl_witness :
    demoCache.timeout = 300 ∧
    ((demoCache.dados = some demoStats → demoCache.timestamp = some 0 →
        (100 : ℚ) - 0 < 300 →
        estatisticas_route demoStore 100 demoCache = (demoStats, demoCache, false)) ∧
      ((demoCache.dados = none ∨ demoCache.timestamp = none) →
        estatisticas_route demoStore 100 demoCache =
          (computeEstatisticas demoStore,
            ⟨some (computeEstatisticas demoStore), some 100, demoCache.timeout⟩, true)) ∧
      (demoCache.dados = some demoStats → demoCache.timestamp = some 0 →
        (300 : ℚ) ≤ 100 - 0 →
        estatisticas_route demoStore 100 demoCache =
          (computeEstatisticas demoStore,
            ⟨some (computeEstatisticas demoStore), some 100, demoCache.timeout⟩, true))) :=
  ⟨rfl, cache_ttl demoStore 100 0 demoCache demoStats rfl⟩

/-- Witness for `top_operadoras_spec` at the sample store. -/
theorem top_operadoras_spec_witness :
    (computeEstatisticas demoStore).top_operadoras.length ≤ 5 ∧
    List.Pairwise (fun a b => b.total_despesas ≤ a.total_despesas)
      (computeEstatisticas demoStore).top_operadoras ∧
    (∀ r ∈ (computeEstatisticas demoStore).top_operadoras,
      despesasDe demoStore r.cnpj ≠ [] ∧
      r.total_despesas = sumValores (despesasDe demoStore r.cnpj)) ∧
    (∀ o ∈ demoStore.operadoras, despesasDe demoStore o.cnpj = [] →
      ∀ r ∈ (computeEstatisticas demoStore).top_operadoras, r.cnpj ≠ o.cnpj) ∧
    (∀ r ∈ groupedTotals demoStore, r ∉ (computeEstatisticas demoStore).top_operadoras →
      ∀ s ∈ (computeEstatisticas demoStore).top_operadoras,
        r.total_despesas ≤ s.total_despesas) ∧
    (computeEstatisticas demoStore).resumo.num_operadoras =
      (computeEstatisticas demoStore).top_operadoras.length :=
  top_operadoras_spec demoStore

/-- Witness for `resumo_totais` on the store with no expense rows. -/
theorem resumo_totais_witness :
    emptyDemo.despesas = [] ∧
    (computeEstatisticas emptyDemo).resumo.total_despesas = 0 ∧
    (computeEstatisticas emptyDemo).resumo.media_despesas = 0 :=
  ⟨rfl, (resumo_totais emptyDemo).2.2 rfl⟩

/-- Witness for `limit_clamped_to_100` with a requested limit of 250. -/
theorem limit_clamped_to_100_witness :
    (100 : Int) < 250 ∧
    (listarCore demoStore 1 250 "" = listarCore demoStore 1 100 "" ∧
      ∃ env, listarCore demoStore 1 250 "" = .ok env ∧ env.limit = 100) :=
  ⟨by decide, limit_clamped_to_100 demoStore 1 250 "" (by decide)⟩

/-- Witness for `pagination_defaults` with the malformed text `abc`. -/
theorem pagination_defaults_witness :
    parsePyInt "abc" = none ∧
    (listar_operadoras demoStore ⟨none, none, none⟩ =
        listarCore demoStore 1 10 (pyStrip ((none : Option String).getD "")) ∧
      (∃ env, listar_operadoras demoStore ⟨none, none, none⟩ = .ok env ∧
        env.page = 1 ∧ env.limit = 10) ∧
      listar_operadoras demoStore ⟨some "abc", none, none⟩ = .error .valueError ∧
      listar_operadoras demoStore ⟨none, some "abc", none⟩ = .error .valueError) :=
  ⟨rfl, pagination_defaults demoStore none "abc" rfl⟩

/-- Witness for `notfound_404` with an absent tax id. -/
theorem notfound_404_witness :
    find_operadora demoStore "999" = none ∧
    (detalhes_operadora demoStore "999" = .error ⟨404, "Operadora não encontrada"⟩ ∧
      historico_despesas demoStore "999" =
        (.error ⟨404, "Operadora não encontrada"⟩, false)) :=
  ⟨rfl, notfound_404 demoStore "999" rfl⟩

/-- Witness for `historico_completo_ordenado` on the operator that has
expense rows in two fiscal periods of 2024 and one of 2023. -/
theorem historico_completo_ordenado_witness :
    find_operadora demoStore "111" = some opAlfa ∧
    (∃ body, historico_despesas demoStore "111" = (.ok body, true) ∧
      body.cnpj = "111" ∧ body.razao_social = opAlfa.razao_social ∧
      List.Perm body.despesas
        ((demoStore.despesas.filter (fun d => d.cnpj == "111")).map
          (fun d => DespesaItem.mk d.trimestre d.ano d.valor)) ∧
      List.Pairwise
        (fun a b => b.ano < a.ano ∨ (a.ano = b.ano ∧ b.trimestre ≤ a.trimestre))
        body.despesas) :=
  ⟨rfl, historico_completo_ordenado demoStore "111" opAlfa rfl⟩

/-- Witness for `limit_lower_bound_unenforced` with requested limit −5. -/
theorem limit_lower_bound_unenforced_witness :
    (-5 : Int) < 0 ∧
    (listarCore demoStore 1 0 "" = .error .zeroDivisionError ∧
      listar_operadoras demoStore ⟨none, some "0", none⟩ = .error .zeroDivisionError ∧
      ∃ env, listarCore demoStore 1 (-5) "" = .ok env ∧ env.limit = -5) :=
  ⟨by decide, limit_lower_bound_unenforced demoStore 1 (-5) "" (by decide)⟩

end AnsApi
